import Mathlib

/-!
# Net-Curl-Easy-FFI: the constant bundle `ffi/const.c`

The repository's C code is one function,

    void
    ffi_pl_bundle_constant(const char *package, ffi_platypus_constant_t *c)
    {
      c->set_uint("CURLOPT_URL",           CURLOPT_URL          );
      c->set_uint("CURLOPT_WRITEFUNCTION", CURLOPT_WRITEFUNCTION);
    }

It is embedded here by explicit state passing: the host's constant table is a
record of callbacks acting on a state, and the function threads the state
through its two calls, in the order of its two statements.
-/

namespace NetCurlEasyFFI

/-! ## What the two included headers declare -/

/-- The declarations `const.c` takes from `<curl/curl.h>` and
`<ffi_platypus_bundle.h>`. Neither header belongs to the repository, so they
are a parameter of the embedding: the two enumerators of `CURLoption` that the
source mentions (C enumerators have type `int`, hence `Int`), and the width in
bits of the unsigned type of the value parameter of `set_uint`. -/
structure Headers where
  CURLOPT_URL : Int
  CURLOPT_WRITEFUNCTION : Int
  uint_bits : Nat
  deriving DecidableEq, Repr

/-- C's conversion of an `int` argument to an unsigned parameter of `bits`
bits: the value modulo `2 ^ bits` (the result lies in `[0, 2 ^ bits)`). -/
def to_uint (bits : Nat) (v : Int) : Int :=
  v % (2 : Int) ^ bits

/-- Both constants are values of the unsigned parameter type of `set_uint`. -/
def Headers.representable (H : Headers) : Prop :=
  (0 ≤ H.CURLOPT_URL ∧ H.CURLOPT_URL < (2 : Int) ^ H.uint_bits) ∧
  (0 ≤ H.CURLOPT_WRITEFUNCTION ∧ H.CURLOPT_WRITEFUNCTION < (2 : Int) ^ H.uint_bits)

instance (H : Headers) : Decidable H.representable := by
  unfold Headers.representable
  infer_instance

/-- The part of `ffi_platypus_constant_t` the source uses: the callback
`set_uint(name, value)`, a C function that acts on the host's state `σ` and
returns. -/
structure ffi_platypus_constant_t (σ : Type) where
  set_uint : String → Int → σ → σ

/-! ## The source function -/

/-- The function `ffi_pl_bundle_constant` of `ffi/const.c`: two calls through
`c->set_uint`, one per statement, each argument converted to the unsigned
parameter type at the call. The `package` argument is not used by the body. -/
def ffi_pl_bundle_constant {σ : Type} (H : Headers) (package : String)
    (c : ffi_platypus_constant_t σ) (s : σ) : σ :=
  let _ := package
  let s := c.set_uint "CURLOPT_URL" (to_uint H.uint_bits H.CURLOPT_URL) s
  let s := c.set_uint "CURLOPT_WRITEFUNCTION" (to_uint H.uint_bits H.CURLOPT_WRITEFUNCTION) s
  s

/-! ## Host tables -/

/-- One call made through the constant table. -/
structure Call where
  name : String
  value : Int
  deriving DecidableEq, Repr

/-- A host table that only records the calls it receives, oldest first. -/
def recorder : ffi_platypus_constant_t (List Call) where
  set_uint name value log := log ++ [⟨name, value⟩]

/-- Performing a list of calls on a table, in order. -/
def replay {σ : Type} (c : ffi_platypus_constant_t σ) (calls : List Call) (s : σ) : σ :=
  calls.foldl (fun s k => c.set_uint k.name k.value s) s

/-- Modelled from the spec: the host runtime's constant table, which the
repository does not contain, as a map from name to unsigned integer in which
`set_uint(name, v)` inserts or overwrites the entry for `name`. -/
def mapTable : ffi_platypus_constant_t (String → Option Int) where
  set_uint name value m := fun k => if k = name then some value else m k

/-- Modelled from the spec: the option-type bases of `<curl/curl.h>`, which the
repository does not contain: 10000 for object (and string) pointers. -/
def CURLOPTTYPE_OBJECTPOINT : Int := 10000

/-- Modelled from the spec: string options share the object-pointer base. -/
def CURLOPTTYPE_STRINGPOINT : Int := CURLOPTTYPE_OBJECTPOINT

/-- Modelled from the spec: the base of function-pointer options, 20000. -/
def CURLOPTTYPE_FUNCTIONPOINT : Int := 20000

/-- Modelled from the spec: libcurl's documented option numbering,
`CURLOPT_URL` = string base + 2 and `CURLOPT_WRITEFUNCTION` = function base
+ 11, with a `set_uint` value parameter of `bits` bits. -/
def libcurl (bits : Nat) : Headers where
  CURLOPT_URL := CURLOPTTYPE_STRINGPOINT + 2
  CURLOPT_WRITEFUNCTION := CURLOPTTYPE_FUNCTIONPOINT + 11
  uint_bits := bits

/-- A sample initial table: a single entry, under a name the source does not
register. -/
def sampleTable : String → Option Int :=
  fun k => if k = "CURLOPT_HEADER" then some 42 else none

/-! ## Helper lemmas -/

theorem to_uint_of_representable {bits : Nat} {v : Int} (h0 : 0 ≤ v)
    (h1 : v < (2 : Int) ^ bits) : to_uint bits v = v := by
  unfold to_uint
  exact Int.emod_eq_of_lt h0 h1

theorem names_ne : ("CURLOPT_URL" : String) ≠ "CURLOPT_WRITEFUNCTION" := by
  decide

/-! ## The claims -/

/-- C1: for every package string and every constant table `c`, when the two
constants are values of the unsigned parameter type, the function performs
exactly two `set_uint` registrations, `("CURLOPT_URL", CURLOPT_URL)` first and
`("CURLOPT_WRITEFUNCTION", CURLOPT_WRITEFUNCTION)` second, and returns: the
recording table's log grows by exactly these two calls in this order, and on
every table the resulting state is the one these two calls produce. -/
theorem ffi_pl_bundle_constant_calls (H : Headers) (hrep : H.representable)
    (package : String) (log : List Call) (σ : Type) (c : ffi_platypus_constant_t σ) (s : σ) :
    ffi_pl_bundle_constant H package recorder log
        = log ++ [⟨"CURLOPT_URL", H.CURLOPT_URL⟩,
                  ⟨"CURLOPT_WRITEFUNCTION", H.CURLOPT_WRITEFUNCTION⟩]
      ∧ ffi_pl_bundle_constant H package c s
        = replay c [⟨"CURLOPT_URL", H.CURLOPT_URL⟩,
                    ⟨"CURLOPT_WRITEFUNCTION", H.CURLOPT_WRITEFUNCTION⟩] s := by
  obtain ⟨⟨u0, u1⟩, ⟨f0, f1⟩⟩ := hrep
  simp [ffi_pl_bundle_constant, recorder, replay, to_uint_of_representable u0 u1,
    to_uint_of_representable f0 f1]

theorem ffi_pl_bundle_constant_calls_witness :
    (libcurl 64).representable ∧
    (ffi_pl_bundle_constant (libcurl 64) "Net::Curl::Easy::FFI" recorder []
        = [] ++ [⟨"CURLOPT_URL", (libcurl 64).CURLOPT_URL⟩,
                  ⟨"CURLOPT_WRITEFUNCTION", (libcurl 64).CURLOPT_WRITEFUNCTION⟩]
      ∧ ffi_pl_bundle_constant (libcurl 64) "Net::Curl::Easy::FFI" mapTable (fun _ => none)
        = replay mapTable [⟨"CURLOPT_URL", (libcurl 64).CURLOPT_URL⟩,
                    ⟨"CURLOPT_WRITEFUNCTION", (libcurl 64).CURLOPT_WRITEFUNCTION⟩]
            (fun _ => none)) :=
  ⟨by decide, ffi_pl_bundle_constant_calls (libcurl 64) (by decide)
    "Net::Curl::Easy::FFI" [] (String → Option Int) mapTable (fun _ => none)⟩

/-- C2: on the map-modelled host table, for every initial table and every
package, when the two constants are values of the unsigned parameter type,
after the call the lookup of "CURLOPT_URL" yields the value of CURLOPT_URL and
the lookup of "CURLOPT_WRITEFUNCTION" yields the value of
CURLOPT_WRITEFUNCTION; the two names are different strings, so the second
registration leaves the first in place. -/
theorem ffi_pl_bundle_constant_lookup (H : Headers) (hrep : H.representable)
    (package : String) (m : String → Option Int) :
    ffi_pl_bundle_constant H package mapTable m "CURLOPT_URL" = some H.CURLOPT_URL
      ∧ ffi_pl_bundle_constant H package mapTable m "CURLOPT_WRITEFUNCTION"
          = some H.CURLOPT_WRITEFUNCTION
      ∧ ("CURLOPT_URL" : String) ≠ "CURLOPT_WRITEFUNCTION" := by
  obtain ⟨⟨u0, u1⟩, ⟨f0, f1⟩⟩ := hrep
  refine ⟨?_, ?_, names_ne⟩
  · simp [ffi_pl_bundle_constant, mapTable, names_ne, to_uint_of_representable u0 u1]
  · simp [ffi_pl_bundle_constant, mapTable, to_uint_of_representable f0 f1]

theorem ffi_pl_bundle_constant_lookup_witness :
    (libcurl 64).representable ∧
    (ffi_pl_bundle_constant (libcurl 64) "Net::Curl::Easy::FFI" mapTable
          (fun k => if k = "CURLOPT_URL" then some 7 else none) "CURLOPT_URL"
        = some (libcurl 64).CURLOPT_URL
      ∧ ffi_pl_bundle_constant (libcurl 64) "Net::Curl::Easy::FFI" mapTable
          (fun k => if k = "CURLOPT_URL" then some 7 else none) "CURLOPT_WRITEFUNCTION"
          = some (libcurl 64).CURLOPT_WRITEFUNCTION
      ∧ ("CURLOPT_URL" : String) ≠ "CURLOPT_WRITEFUNCTION") :=
  ⟨by decide, ffi_pl_bundle_constant_lookup (libcurl 64) (by decide)
    "Net::Curl::Easy::FFI" (fun k => if k = "CURLOPT_URL" then some 7 else none)⟩

/-- C3: on the map-modelled host table, for every initial table and every name
other than "CURLOPT_URL" and "CURLOPT_WRITEFUNCTION", the entry for that name
(present or absent) is the same after the call as before it; the names that
are absent before and present after lie among these two, so the table gains at
most two entries. -/
theorem ffi_pl_bundle_constant_frame (H : Headers) (package : String)
    (m : String → Option Int) (name : String)
    (hurl : name ≠ "CURLOPT_URL") (hwf : name ≠ "CURLOPT_WRITEFUNCTION") :
    ffi_pl_bundle_constant H package mapTable m name = m name
      ∧ {k | m k = none ∧ ffi_pl_bundle_constant H package mapTable m k ≠ none}
          ⊆ ({"CURLOPT_URL", "CURLOPT_WRITEFUNCTION"} : Set String)
      ∧ Set.ncard {k | m k = none ∧ ffi_pl_bundle_constant H package mapTable m k ≠ none}
          ≤ 2 := by
  have hsub : {k | m k = none ∧ ffi_pl_bundle_constant H package mapTable m k ≠ none}
      ⊆ ({"CURLOPT_URL", "CURLOPT_WRITEFUNCTION"} : Set String) := by
    intro k hk
    obtain ⟨hbefore, hafter⟩ := hk
    by_contra hnot
    simp only [Set.mem_insert_iff, Set.mem_singleton_iff, not_or] at hnot
    apply hafter
    simp [ffi_pl_bundle_constant, mapTable, hnot.1, hnot.2, hbefore]
  refine ⟨?_, hsub, ?_⟩
  · simp [ffi_pl_bundle_constant, mapTable, hurl, hwf]
  · calc Set.ncard {k | m k = none ∧ ffi_pl_bundle_constant H package mapTable m k ≠ none}
        ≤ Set.ncard ({"CURLOPT_URL", "CURLOPT_WRITEFUNCTION"} : Set String) :=
          Set.ncard_le_ncard hsub (Set.toFinite _)
      _ = 2 := Set.ncard_pair names_ne

theorem ffi_pl_bundle_constant_frame_witness :
    (("CURLOPT_HEADER" : String) ≠ "CURLOPT_URL"
      ∧ ("CURLOPT_HEADER" : String) ≠ "CURLOPT_WRITEFUNCTION") ∧
    (ffi_pl_bundle_constant (libcurl 64) "Net::Curl::Easy::FFI" mapTable sampleTable
          "CURLOPT_HEADER"
        = sampleTable "CURLOPT_HEADER"
      ∧ {k | sampleTable k = none
            ∧ ffi_pl_bundle_constant (libcurl 64) "Net::Curl::Easy::FFI" mapTable
                sampleTable k ≠ none}
          ⊆ ({"CURLOPT_URL", "CURLOPT_WRITEFUNCTION"} : Set String)
      ∧ Set.ncard {k | sampleTable k = none
            ∧ ffi_pl_bundle_constant (libcurl 64) "Net::Curl::Easy::FFI" mapTable
                sampleTable k ≠ none}
          ≤ 2) :=
  ⟨⟨by decide, by decide⟩,
    ffi_pl_bundle_constant_frame (libcurl 64) "Net::Curl::Easy::FFI" sampleTable
      "CURLOPT_HEADER" (by decide) (by decide)⟩

/-- C4: the result does not depend on the package argument: for every two
package strings and the same initial state, the recorded sequence of set_uint
registrations is the same, and so is the resulting state of every table, the
map-modelled one included. -/
theorem ffi_pl_bundle_constant_package_irrelevant (H : Headers) (p1 p2 : String)
    (log : List Call) (m : String → Option Int) (σ : Type)
    (c : ffi_platypus_constant_t σ) (s : σ) :
    ffi_pl_bundle_constant H p1 recorder log = ffi_pl_bundle_constant H p2 recorder log
      ∧ ffi_pl_bundle_constant H p1 mapTable m = ffi_pl_bundle_constant H p2 mapTable m
      ∧ ffi_pl_bundle_constant H p1 c s = ffi_pl_bundle_constant H p2 c s :=
  ⟨rfl, rfl, rfl⟩

/-- C5: with libcurl's documented option numbering and a set_uint value
parameter of at least 32 bits, CURLOPT_URL is 10002 and CURLOPT_WRITEFUNCTION
is 20011; the two are distinct, non-negative and below 2^32, the conversion to
the unsigned parameter type changes neither (v % 2^32 = v, and likewise at the
actual width), and the values the function registers are 10002 for
"CURLOPT_URL" and 20011 for "CURLOPT_WRITEFUNCTION". -/
theorem ffi_pl_bundle_constant_libcurl_values (bits : Nat) (hbits : 32 ≤ bits)
    (package : String) (log : List Call) :
    ((libcurl bits).CURLOPT_URL = 10002 ∧ (libcurl bits).CURLOPT_WRITEFUNCTION = 20011)
      ∧ (libcurl bits).CURLOPT_URL ≠ (libcurl bits).CURLOPT_WRITEFUNCTION
      ∧ (0 ≤ (libcurl bits).CURLOPT_URL ∧ 0 ≤ (libcurl bits).CURLOPT_WRITEFUNCTION)
      ∧ ((libcurl bits).CURLOPT_URL < 2 ^ 32 ∧ (libcurl bits).CURLOPT_WRITEFUNCTION < 2 ^ 32)
      ∧ ((libcurl bits).CURLOPT_URL % 2 ^ 32 = (libcurl bits).CURLOPT_URL
          ∧ (libcurl bits).CURLOPT_WRITEFUNCTION % 2 ^ 32
              = (libcurl bits).CURLOPT_WRITEFUNCTION)
      ∧ (to_uint bits (libcurl bits).CURLOPT_URL = 10002
          ∧ to_uint bits (libcurl bits).CURLOPT_WRITEFUNCTION = 20011)
      ∧ ffi_pl_bundle_constant (libcurl bits) package recorder log
          = log ++ [⟨"CURLOPT_URL", 10002⟩, ⟨"CURLOPT_WRITEFUNCTION", 20011⟩] := by
  have hpow : (2 : Int) ^ 32 ≤ (2 : Int) ^ bits :=
    pow_le_pow_right₀ (by norm_num) hbits
  have hu : to_uint bits 10002 = 10002 :=
    to_uint_of_representable (by norm_num) (lt_of_lt_of_le (by norm_num) hpow)
  have hf : to_uint bits 20011 = 20011 :=
    to_uint_of_representable (by norm_num) (lt_of_lt_of_le (by norm_num) hpow)
  have eu : (libcurl bits).CURLOPT_URL = 10002 := by
    simp [libcurl, CURLOPTTYPE_STRINGPOINT, CURLOPTTYPE_OBJECTPOINT]
  have ef : (libcurl bits).CURLOPT_WRITEFUNCTION = 20011 := by
    simp [libcurl, CURLOPTTYPE_FUNCTIONPOINT]
  have eb : (libcurl bits).uint_bits = bits := rfl
  refine ⟨⟨eu, ef⟩, ?_, ?_, ?_, ?_, ?_, ?_⟩
  · rw [eu, ef]; norm_num
  · rw [eu, ef]; norm_num
  · rw [eu, ef]; norm_num
  · rw [eu, ef]; norm_num
  · rw [eu, ef]; exact ⟨hu, hf⟩
  · simp [ffi_pl_bundle_constant, recorder, eu, ef, eb, hu, hf]

theorem ffi_pl_bundle_constant_libcurl_values_witness :
    32 ≤ 64 ∧
    ffi_pl_bundle_constant (libcurl 64) "Net::Curl::Easy::FFI" recorder []
      = [] ++ [⟨"CURLOPT_URL", 10002⟩, ⟨"CURLOPT_WRITEFUNCTION", 20011⟩] :=
  ⟨by decide, (ffi_pl_bundle_constant_libcurl_values 64 (by decide)
    "Net::Curl::Easy::FFI" []).2.2.2.2.2.2⟩

/-- C6: registration is idempotent on the map-modelled host table: for every
initial table and every package, calling the function twice in a row leaves
the same table as calling it once. -/
theorem ffi_pl_bundle_constant_idempotent (H : Headers) (package : String)
    (m : String → Option Int) :
    ffi_pl_bundle_constant H package mapTable (ffi_pl_bundle_constant H package mapTable m)
      = ffi_pl_bundle_constant H package mapTable m := by
  funext k
  simp only [ffi_pl_bundle_constant, mapTable]
  by_cases hwf : k = "CURLOPT_WRITEFUNCTION"
  · simp [hwf]
  · by_cases hurl : k = "CURLOPT_URL"
    · simp [hurl, names_ne]
    · simp [hwf, hurl]

end NetCurlEasyFFI
